import Mathlib

/-!
Verification of the binary-structure engines behind the bloodyAD removal
operations: the DNS record delete matching loop, the access-control delta
engine (grant / revoke), the RBCD attribute write-back rule, the
key-credential list filter and the userAccountControl flag removal.

Definitions are translated from `bloodyAD/cli_modules/remove.py` and
`bloodyAD/modules.py`. Codecs that live in modules outside those two files
(`bloodyAD/formatters/dns.py`, `bloodyAD/utils.py`, the security-descriptor
library) are modelled from the specification, as marked on each definition.
-/

/-- Raw directory bytes: each element is one byte value. -/
abbrev Bytes := List Nat

/-- Little-endian 2-byte encoding of a numeric field. -/
def le16 (n : Nat) : Bytes := [n % 256, n / 256 % 256]

/-- Little-endian 4-byte encoding of a numeric field. -/
def le32 (n : Nat) : Bytes :=
  [n % 256, n / 256 % 256, n / 65536 % 256, n / 16777216 % 256]

/-- DNS record types supported by the delete operation (`remove.py`, `dnsRecord`). -/
inductive DnsType
  | A
  | AAAA
  | CNAME
  | MX
  | PTR
  | SRV
  | TXT
  deriving DecidableEq

/-- Modelled from the spec: numeric wire code of a DNS record type
(the `dns.Record` codec is not under `src/`). -/
def dnsTypeCode : DnsType → Nat
  | .A => 1
  | .AAAA => 28
  | .CNAME => 5
  | .MX => 15
  | .PTR => 12
  | .SRV => 33
  | .TXT => 16

/-- Modelled from the spec: typed payload encoder of the DNS record codec
(spec 4.4 / 6) — address bytes for A/AAAA, a domain-name payload for
CNAME/PTR, a (preference, name) pair for MX, a (priority, weight, port, name)
tuple for SRV, a length-prefixed string for TXT. The textual `data` argument
is modelled as its already-parsed payload bytes. -/
def encodePayload (ty : DnsType) (data : Bytes) (pref port prio weight : Option Nat) :
    Bytes :=
  match ty with
  | .A => data
  | .AAAA => data
  | .CNAME => data
  | .PTR => data
  | .MX => le16 (pref.getD 0) ++ data
  | .SRV => le16 (prio.getD 0) ++ le16 (weight.getD 0) ++ le16 (port.getD 0) ++ data
  | .TXT => [data.length % 256] ++ data

/-- Modelled from the spec: `Record.fromDict` followed by `getData` — the
fixed header `[dataLength:2][type:2][version:1][rank:1][flags:2][serial:4]`
`[ttlSeconds:4][reserved:4][timestamp:4]` followed by the typed payload, with
`dataLength` recomputed from the payload, version 5 and zero
flags/reserved/timestamp on a freshly built candidate. -/
def encodeRecord (data : Bytes) (ty : DnsType) (ttl rank serial : Nat)
    (pref port prio weight : Option Nat) : Bytes :=
  le16 (encodePayload ty data pref port prio weight).length ++
    le16 (dnsTypeCode ty) ++ [5, rank % 256] ++ le16 0 ++ le32 serial ++
    le32 ttl ++ le32 0 ++ le32 0 ++ encodePayload ty data pref port prio weight

/-- Modelled from the spec: reading the `Rank` header field of a stored raw
record (byte offset 5). -/
def readRank (raw : Bytes) : Nat := raw.getD 5 0

/-- Modelled from the spec: reading the `Serial` header field of a stored raw
record (little-endian bytes 8..11). -/
def readSerial (raw : Bytes) : Nat :=
  raw.getD 8 0 + 256 * raw.getD 9 0 + 65536 * raw.getD 10 0 +
    16777216 * raw.getD 11 0

/-- Modelled from the spec: reading the `TtlSeconds` header field of a stored
raw record (little-endian bytes 12..15). -/
def readTtl (raw : Bytes) : Nat :=
  raw.getD 12 0 + 256 * raw.getD 13 0 + 65536 * raw.getD 14 0 +
    16777216 * raw.getD 15 0

/-- The record-matching loop of `dnsRecord` (`remove.py` lines 87-109),
threading the `ttl` variable across iterations exactly as the Python code
does: `if not ttl: ttl = record[TtlSeconds]` mutates `ttl`, so once a record
with nonzero ttl has been seen the borrowed value is reused for all later
candidates. `ttl = 0` models both the Python `None` and `0` (both falsy). -/
def dnsFindMatchGo (data : Bytes) (ty : DnsType) (pref port prio weight : Option Nat) :
    List Bytes → Nat → Option Bytes
  | [], _ => none
  | r :: rs, ttl =>
    if encodeRecord data ty (if ttl = 0 then readTtl r else ttl) (readRank r)
        (readSerial r) pref port prio weight = r then
      some r
    else
      dnsFindMatchGo data ty pref port prio weight rs
        (if ttl = 0 then readTtl r else ttl)

/-- The search for the record to remove in `dnsRecord` (`remove.py`
lines 87-109): returns the first stored raw record that compares byte-equal
to the encoded candidate, if any. -/
def dnsFindMatch (records : List Bytes) (data : Bytes) (ty : DnsType) (ttl : Nat)
    (pref port prio weight : Option Nat) : Option Bytes :=
  dnsFindMatchGo data ty pref port prio weight records ttl

/-- The per-record ttl borrowing exactly as the claim and the spec words state
it (spec 4.4): for each stored record R, the candidate uses the ttlSeconds of
R itself when the caller supplied none. Stated from the spec words only, for
refinement comparison with `dnsFindMatch`. -/
def dnsFindMatchClaim (records : List Bytes) (data : Bytes) (ty : DnsType)
    (ttl : Option Nat) (pref port prio weight : Option Nat) : Option Bytes :=
  records.find? (fun r =>
    decide (encodeRecord data ty (ttl.getD (readTtl r)) (readRank r) (readSerial r)
      pref port prio weight = r))

/-- The ttl value in effect at each stored record, as threaded by the loop of
`dnsRecord`: the caller-supplied ttl if nonzero, otherwise the ttlSeconds of
the first record seen with nonzero ttl. -/
def threadTtls (ttl : Nat) : List Bytes → List (Bytes × Nat)
  | [] => []
  | r :: rs =>
    (r, if ttl = 0 then readTtl r else ttl) ::
      threadTtls (if ttl = 0 then readTtl r else ttl) rs

/-- Reformulation of the matching loop as a first-match search over records
paired with their in-effect ttl values. -/
def dnsFindMatchThreaded (records : List Bytes) (data : Bytes) (ty : DnsType)
    (ttl : Nat) (pref port prio weight : Option Nat) : Option Bytes :=
  ((threadTtls ttl records).find? (fun p =>
    decide (encodeRecord data ty p.2 (readRank p.1) (readSerial p.1)
      pref port prio weight = p.1))).map Prod.fst

/-- Outcome of the delete operation: the directory modification issued, if
any, and whether the not-found warning was logged. -/
structure DnsDeleteOutcome where
  modification : Option Bytes
  warnedNotFound : Bool
  deriving DecidableEq

/-- The tail of `dnsRecord` (`remove.py` lines 111-119): when no record
matched, log a warning and return without any directory modification;
otherwise issue the delete modification for the matched raw record. The
Python test `if not record_to_remove` is falsy for `None` and for empty
bytes, so both are modelled as the warning path. -/
def dnsRecordOp (records : List Bytes) (data : Bytes) (ty : DnsType) (ttl : Nat)
    (pref port prio weight : Option Nat) : DnsDeleteOutcome :=
  match dnsFindMatch records data ty ttl pref port prio weight with
  | none => ⟨none, true⟩
  | some r => if r = [] then ⟨none, true⟩ else ⟨some r, false⟩

/-- A stored A record 1.2.3.4 with ttl 1800, rank 20, serial 6. -/
def dnsRecA1234 : Bytes := encodeRecord [1, 2, 3, 4] .A 1800 20 6 none none none none

/-- A stored A record 5.6.7.8 with ttl 3600, rank 20, serial 5. -/
def dnsRecA5678 : Bytes := encodeRecord [5, 6, 7, 8] .A 3600 20 5 none none none none

/-- One access-control entry: type code, inheritance flags, access mask,
optional object-type GUID bytes (object ACEs), and the trustee SID kept as
raw bytes — `delRbcd` compares `ace.Sid.getData()` against the raw SID. -/
structure ACE where
  aceType : Nat
  aceFlags : Nat
  mask : Nat
  objectType : Option Bytes
  sid : Bytes
  deriving DecidableEq

/-- A security descriptor: revision, control flags, owner / group SIDs and the
SACL kept as untouched raw bytes (empty meaning absent), and the DACL as the
ordered ACE list that the delta engine mutates. -/
structure SecurityDescriptor where
  revision : Nat
  control : Nat
  owner : Bytes
  group : Bytes
  sacl : Bytes
  dacl : List ACE
  deriving DecidableEq

/-- Modelled from the spec: ACE serialization (spec 6) — common prefix
`[type:1][flags:1][size:2][accessMask:4]`, object ACEs then carry a 4-byte
object-flags sub-field and the GUID before the trustee SID bytes. -/
def encodeACE (a : ACE) : Bytes :=
  match a.objectType with
  | some g =>
      [a.aceType % 256, a.aceFlags % 256] ++ le16 (8 + 4 + g.length + a.sid.length) ++
        le32 a.mask ++ le32 1 ++ g ++ a.sid
  | none =>
      [a.aceType % 256, a.aceFlags % 256] ++ le16 (8 + a.sid.length) ++
        le32 a.mask ++ a.sid

/-- Modelled from the spec: ACL serialization — revision, size, AceCount,
then the ACEs in order. -/
def encodeACL (aces : List ACE) : Bytes :=
  [2, 0] ++ le16 (8 + (aces.map encodeACE).flatten.length) ++ le16 aces.length ++
    [0, 0] ++ (aces.map encodeACE).flatten

/-- Modelled from the spec: self-relative security-descriptor serialization
(`getData`, spec 4.1 / 6) — header
`[revision:1][controlFlags:2][ownerOffset:4][groupOffset:4][saclOffset:4]`
`[daclOffset:4]`, offsets recomputed in the fixed layout order header, owner,
group, SACL, DACL; a zero offset means the part is absent. -/
def getData (sd : SecurityDescriptor) : Bytes :=
  [sd.revision % 256] ++ le16 sd.control ++
    le32 (if sd.owner = [] then 0 else 19) ++
    le32 (if sd.group = [] then 0 else 19 + sd.owner.length) ++
    le32 (if sd.sacl = [] then 0 else 19 + sd.owner.length + sd.group.length) ++
    le32 (19 + sd.owner.length + sd.group.length + sd.sacl.length) ++
    sd.owner ++ sd.group ++ sd.sacl ++ encodeACL sd.dacl

/-- The filtering loop of `delRbcd` (`modules.py` lines 365-373): walk the
DACL and append to `aces_to_keep` exactly the ACEs whose trustee SID bytes
differ from the given SID, keeping their order. -/
def rbcdAcesToKeep (aces : List ACE) (spnSid : Bytes) : List ACE :=
  aces.foldl (fun kept ace => if ace.sid = spnSid then kept else kept ++ [ace]) []

/-- The write-back value computation of `rbcd` (`remove.py` lines 201-203)
and `delRbcd` (`modules.py` lines 375-381): start from an empty value list
and append the serialized descriptor only when the DACL still has ACEs. -/
def rbcdAttrValues (sd : SecurityDescriptor) : List Bytes :=
  if 0 < sd.dacl.length then ([] : List Bytes) ++ [getData sd] else []

/-- Modelled from the spec: the match test of `utils.delRight` (the delta
engine revokeRight, not under `src/`) — an ACE is removed when its trustee
SID equals the given SID and, when an access mask is supplied, its mask
exactly equals the requested mask (spec 4.2, exact-match rule). -/
def delRightHit (trustee : Bytes) (mask : Option Nat) (a : ACE) : Bool :=
  decide (a.sid = trustee) &&
    (match mask with
     | none => true
     | some m => decide (a.mask = m))

/-- Modelled from the spec: `utils.delRight` (revokeRight, not under `src/`) —
remove every matching ACE from the DACL, keep everything else in order, and
report whether anything matched (spec 4.2). -/
def delRight (sd : SecurityDescriptor) (trustee : Bytes) (mask : Option Nat) :
    SecurityDescriptor × Bool :=
  ({ sd with dacl := sd.dacl.filter (fun a => ! delRightHit trustee mask a) },
   sd.dacl.any (delRightHit trustee mask))

/-- Modelled from the spec: `utils.createACE` (not under `src/`) — build an
AccessAllowed ACE (type 0), or an AccessAllowedObject ACE (type 5) when an
object-type GUID is given, with the given access mask and trustee. -/
def createACE (sid : Bytes) (objectType : Option Bytes) (mask : Nat) : ACE :=
  { aceType := if objectType.isSome then 5 else 0,
    aceFlags := 0,
    mask := mask,
    objectType := objectType,
    sid := sid }

/-- The grant operation as performed by `setRbcd` (`modules.py` line 335) and
by each of the two appends of `addDomainSync` (lines 228-229): append a newly
created ACE to the end of the DACL, with no de-duplication. -/
def grantRight (sd : SecurityDescriptor) (sid : Bytes) (objectType : Option Bytes)
    (mask : Nat) : SecurityDescriptor :=
  { sd with dacl := sd.dacl ++ [createACE sid objectType mask] }

/-- Modelled from the spec: a key-credential entry is an opaque blob with an
extractable fixed-length key id (`KEYCREDENTIALLINK_BLOB.getKeyID` and
`DNBinary` are not under `src/`). -/
structure KeyCredEntry where
  keyId : Bytes
  blob : Bytes
  deriving DecidableEq

/-- One iteration of the filtering loop of `shadowCredentials` (`remove.py`
lines 229-236): `if key and getKeyID() != unhexlify(key)` keeps the entry,
otherwise the entry is dropped and `isFound` is set. `key = none` models the
Python `key` argument being `None` (or the falsy empty string). -/
def shadowFilterStep (key : Option Bytes) (acc : List KeyCredEntry × Bool)
    (e : KeyCredEntry) : List KeyCredEntry × Bool :=
  match key with
  | some k => if e.keyId ≠ k then (acc.1 ++ [e], acc.2) else (acc.1, true)
  | none => (acc.1, true)

/-- The filtering loop of `shadowCredentials` (`remove.py` lines 227-236):
returns the kept entries and the `isFound` flag. -/
def shadowFilter (entries : List KeyCredEntry) (key : Option Bytes) :
    List KeyCredEntry × Bool :=
  entries.foldl (shadowFilterStep key) ([], false)

/-- Outcome of the shadow-credentials removal: whether the no-key-found
warning was logged, and the replace value of the modification issued. -/
structure ShadowOutcome where
  warnedNoKey : Bool
  modification : Option (List KeyCredEntry)
  deriving DecidableEq

/-- The whole `shadowCredentials` operation (`remove.py` lines 227-243): the
replace write is issued unconditionally with the filtered list, after the
warning when nothing matched. -/
def shadowCredentialsOp (entries : List KeyCredEntry) (key : Option Bytes) :
    ShadowOutcome :=
  { warnedNoKey := ! (shadowFilter entries key).2,
    modification := some (shadowFilter entries key).1 }

/-- The flag-accumulation loop of `uac` (`remove.py` lines 256-258), over the
numeric flag values looked up in `ACCOUNT_FLAGS`. -/
def uacFlagsOr (flags : List Nat) : Nat := flags.foldl (fun acc f => acc ||| f) 0

/-- Python `old & ~mask` on unbounded non-negative integers: bitwise AND NOT. -/
def pyAndNot (a b : Nat) : Nat := Nat.bitwise (fun x y => x && !y) a b

/-- The written userAccountControl value of `uac` (`remove.py` line 275):
`uac = int(old_uac) & ~uac`. -/
def uacRemove (old : Nat) (flags : List Nat) : Nat := pyAndNot old (uacFlagsOr flags)

/-- A trustee SID used in concrete examples. -/
def sidT : Bytes := [1, 1, 0, 0, 0, 0, 0, 5, 11, 0, 0, 0]

/-- An ACE granting CONTROL_ACCESS (0x100) to the example trustee. -/
def aceControlAccess : ACE :=
  { aceType := 0, aceFlags := 0, mask := 256, objectType := none, sid := sidT }

/-- An ACE granting GENERIC_ALL (0x10000000) to the example trustee. -/
def aceGenericAll : ACE :=
  { aceType := 0, aceFlags := 0, mask := 268435456, objectType := none, sid := sidT }

/-- A descriptor with an empty DACL. -/
def sdNoAces : SecurityDescriptor := ⟨1, 4, [], [], [], []⟩

/-- A descriptor whose DACL grants two different masks to the same trustee. -/
def sdTwoMasks : SecurityDescriptor :=
  ⟨1, 4, [], [], [], [aceControlAccess, aceGenericAll]⟩

/-- A concrete key-credential entry. -/
def keyCredExample : KeyCredEntry := ⟨[7, 7], [1, 2, 3]⟩

/-- The matching loop equals the first-match search over records paired with
their threaded in-effect ttl values. -/
theorem dnsFindMatchGo_eq_threaded (data : Bytes) (ty : DnsType)
    (pref port prio weight : Option Nat) (records : List Bytes) (ttl : Nat) :
    dnsFindMatchGo data ty pref port prio weight records ttl
      = ((threadTtls ttl records).find? (fun p =>
          decide (encodeRecord data ty p.2 (readRank p.1) (readSerial p.1)
            pref port prio weight = p.1))).map Prod.fst := by
  induction records generalizing ttl with
  | nil => rfl
  | cons r rs ih =>
    simp only [dnsFindMatchGo, threadTtls, List.find?]
    by_cases h : encodeRecord data ty (if ttl = 0 then readTtl r else ttl)
        (readRank r) (readSerial r) pref port prio weight = r
    · simp [h]
    · simp [h, ih]

/-- C1 (amended): in the DNS record delete operation, the candidate compared
against each stored record R is built from the requested data and type
together with the rank and serial of R and the ttl in effect when R is
examined — the supplied ttl if any, otherwise the ttlSeconds of the first
record examined with nonzero ttl, borrowed once and then reused rather than
re-borrowed per record — the candidate is encoded and compared byte-for-byte
to R, and the first byte-exact match is the record removed. -/
theorem dnsFindMatch_eq_threaded (records : List Bytes) (data : Bytes)
    (ty : DnsType) (ttl : Nat) (pref port prio weight : Option Nat) :
    dnsFindMatch records data ty ttl pref port prio weight
      = dnsFindMatchThreaded records data ty ttl pref port prio weight :=
  dnsFindMatchGo_eq_threaded data ty pref port prio weight records ttl

/-- C1 counterexample: with the 5.6.7.8 / ttl 3600 record stored first and
the 1.2.3.4 / ttl 1800 record second, deleting (A, 1.2.3.4) without a ttl
finds no record in the code — the ttl borrowed from the first record is
reused for the second candidate — while the per-record borrowing stated by
the claim would match the second record. -/
theorem dnsRecord_ttl_not_borrowed_per_record :
    dnsFindMatch [dnsRecA5678, dnsRecA1234] [1, 2, 3, 4] .A 0 none none none none
        = none
    ∧ dnsFindMatchClaim [dnsRecA5678, dnsRecA1234] [1, 2, 3, 4] .A none
        none none none none = some dnsRecA1234 :=
  ⟨by decide, by decide⟩

/-- C6: when no stored record compares byte-equal to the encoded candidate,
the DNS delete operation issues no directory modification, reports the
not-found warning, and returns normally. -/
theorem dnsRecord_no_match_no_modify (records : List Bytes) (data : Bytes)
    (ty : DnsType) (ttl : Nat) (pref port prio weight : Option Nat)
    (h : dnsFindMatch records data ty ttl pref port prio weight = none) :
    dnsRecordOp records data ty ttl pref port prio weight = ⟨none, true⟩ := by
  unfold dnsRecordOp
  rw [h]

/-- C6 witness: on an attribute with no stored records the hypothesis holds
and the operation warns without modifying anything. -/
theorem dnsRecord_no_match_no_modify_witness :
    dnsFindMatch [] [1, 2, 3, 4] .A 0 none none none none = none
    ∧ dnsRecordOp [] [1, 2, 3, 4] .A 0 none none none none = ⟨none, true⟩ :=
  ⟨rfl, dnsRecord_no_match_no_modify [] [1, 2, 3, 4] .A 0 none none none none rfl⟩

/-- C2: revokeRight with an access mask removes exactly the ACEs whose
trustee matches and whose mask exactly equals the requested mask; every ACE
of the same trustee with a different (even overlapping) mask stays in the
DACL. -/
theorem delRight_mask_exact (sd : SecurityDescriptor) (trustee : Bytes) (m : Nat)
    (a : ACE) :
    a ∈ (delRight sd trustee (some m)).1.dacl
      ↔ a ∈ sd.dacl ∧ ¬(a.sid = trustee ∧ a.mask = m) := by
  simp [delRight, delRightHit, List.mem_filter]
  tauto

/-- C2 witness: revoking CONTROL_ACCESS from a trustee holding both
CONTROL_ACCESS and GENERIC_ALL leaves the GENERIC_ALL entry in the DACL. -/
theorem delRight_mask_exact_witness :
    aceGenericAll ∈ (delRight sdTwoMasks sidT (some 256)).1.dacl :=
  (delRight_mask_exact sdTwoMasks sidT 256 aceGenericAll).mpr
    ⟨by decide, by decide⟩

/-- C3: after the rights removal, the RBCD attribute is written as an empty
value set when the resulting DACL has zero ACEs, and as the single serialized
security descriptor otherwise. -/
theorem rbcdAttrValues_spec (sd : SecurityDescriptor) :
    (sd.dacl = [] → rbcdAttrValues sd = [])
    ∧ (sd.dacl ≠ [] → rbcdAttrValues sd = [getData sd]) := by
  constructor
  · intro h
    simp [rbcdAttrValues, h]
  · intro h
    simp [rbcdAttrValues, List.length_pos.mpr h]

/-- C3 witness: both branches evaluated on concrete descriptors. -/
theorem rbcdAttrValues_spec_witness :
    rbcdAttrValues sdNoAces = [] ∧ rbcdAttrValues sdTwoMasks = [getData sdTwoMasks] :=
  ⟨(rbcdAttrValues_spec sdNoAces).1 rfl, (rbcdAttrValues_spec sdTwoMasks).2 (by decide)⟩

/-- The shadow-credentials loop as a filter plus an existence flag, for any
accumulator state. -/
theorem shadowFilter_go (key : Option Bytes) (l : List KeyCredEntry)
    (acc : List KeyCredEntry) (b : Bool) :
    l.foldl (shadowFilterStep key) (acc, b)
      = (acc ++ l.filter (fun e =>
            match key with
            | some k => decide (e.keyId ≠ k)
            | none => false),
         b || l.any (fun e =>
            match key with
            | some k => decide (e.keyId = k)
            | none => true)) := by
  induction l generalizing acc b with
  | nil => simp
  | cons e l ih =>
    cases key with
    | none =>
      simp [List.foldl_cons, shadowFilterStep, ih]
    | some k =>
      by_cases h : e.keyId = k
      · simp [List.foldl_cons, shadowFilterStep, h, ih]
      · simp [List.foldl_cons, shadowFilterStep, h, ih]

/-- C4: with a key id given, the remaining entries are exactly those whose
key id differs from it; with the key omitted, nothing remains; the reported
flag is true exactly when at least one entry was removed, so it is false on
an empty input list. -/
theorem shadowFilter_spec (entries : List KeyCredEntry) (k : Bytes)
    (key : Option Bytes) :
    (shadowFilter entries (some k)).1
        = entries.filter (fun e => decide (e.keyId ≠ k))
    ∧ (shadowFilter entries none).1 = []
    ∧ (shadowFilter entries key).2 = entries.any (fun e =>
        match key with
        | some kk => decide (e.keyId = kk)
        | none => true)
    ∧ shadowFilter ([] : List KeyCredEntry) key = ([], false) := by
  refine ⟨?_, ?_, ?_, rfl⟩
  · simp [shadowFilter, shadowFilter_go]
  · simp [shadowFilter, shadowFilter_go]
  · simp [shadowFilter, shadowFilter_go]

/-- The keep-loop of delRbcd as an order-preserving filter, for any
accumulator state. -/
theorem rbcdAcesToKeep_go (aces : List ACE) (sid : Bytes) (acc : List ACE) :
    aces.foldl (fun kept ace => if ace.sid = sid then kept else kept ++ [ace]) acc
      = acc ++ aces.filter (fun a => decide (a.sid ≠ sid)) := by
  induction aces generalizing acc with
  | nil => simp
  | cons x l ih =>
    by_cases h : x.sid = sid
    · simp [List.foldl_cons, h, ih]
    · simp [List.foldl_cons, h, ih]

/-- C5: revokeRight without an access mask (as in the RBCD delete operation)
removes every ACE whose trustee SID equals the given SID regardless of mask,
and keeps every ACE with a different trustee SID. -/
theorem rbcd_revoke_trustee_only (aces : List ACE) (sid : Bytes) (a : ACE)
    (sd : SecurityDescriptor) (t : Bytes) (b : ACE) :
    (a ∈ rbcdAcesToKeep aces sid ↔ a ∈ aces ∧ a.sid ≠ sid)
    ∧ (b ∈ (delRight sd t none).1.dacl ↔ b ∈ sd.dacl ∧ b.sid ≠ t) := by
  constructor
  · rw [rbcdAcesToKeep, rbcdAcesToKeep_go]
    simp [List.mem_filter]
  · simp [delRight, delRightHit, List.mem_filter]

/-- C5 witness: an ACE of a different trustee survives the RBCD removal. -/
theorem rbcd_revoke_trustee_only_witness :
    aceGenericAll ∈ rbcdAcesToKeep [aceControlAccess, aceGenericAll] [9, 9] :=
  ((rbcd_revoke_trustee_only [aceControlAccess, aceGenericAll] [9, 9] aceGenericAll
      sdTwoMasks sidT aceGenericAll).1).mpr ⟨by decide, by decide⟩

/-- C7: granting a right appends the new ACE at the end of the DACL with no
de-duplication — applying the grant twice with identical arguments yields two
identical ACEs, and the second application is not the identity. -/
theorem grantRight_appends_no_dedup (sd : SecurityDescriptor) (sid : Bytes)
    (objectType : Option Bytes) (mask : Nat) :
    (grantRight (grantRight sd sid objectType mask) sid objectType mask).dacl
      = sd.dacl ++ [createACE sid objectType mask, createACE sid objectType mask]
    ∧ grantRight (grantRight sd sid objectType mask) sid objectType mask
      ≠ grantRight sd sid objectType mask := by
  constructor
  · simp [grantRight]
  · intro h
    have hlen := congrArg (fun s => s.dacl.length) h
    simp [grantRight] at hlen

/-- C7 witness: the double grant evaluated on a concrete descriptor. -/
theorem grantRight_appends_no_dedup_witness :
    (grantRight (grantRight sdTwoMasks sidT none 983551) sidT none 983551).dacl
      = sdTwoMasks.dacl ++ [createACE sidT none 983551, createACE sidT none 983551]
    ∧ grantRight (grantRight sdTwoMasks sidT none 983551) sidT none 983551
      ≠ grantRight sdTwoMasks sidT none 983551 :=
  grantRight_appends_no_dedup sdTwoMasks sidT none 983551

/-- C8: delta-engine operations never reorder untouched DACL entries: the
kept ACEs of both revocation paths form an order-preserving sublist of the
original DACL, and the grant leaves the whole original DACL as an unchanged
prefix. -/
theorem dacl_order_preserved (aces : List ACE) (sid : Bytes)
    (sd : SecurityDescriptor) (t : Bytes) (m : Option Nat)
    (gsid : Bytes) (objectType : Option Bytes) (gmask : Nat) :
    List.Sublist (rbcdAcesToKeep aces sid) aces
    ∧ List.Sublist (delRight sd t m).1.dacl sd.dacl
    ∧ (grantRight sd gsid objectType gmask).dacl
        = sd.dacl ++ [createACE gsid objectType gmask] := by
  refine ⟨?_, ?_, rfl⟩
  · rw [rbcdAcesToKeep, rbcdAcesToKeep_go]
    simp [List.filter_sublist]
  · exact List.filter_sublist sd.dacl

/-- C9: the written userAccountControl value is exactly the previous value
AND NOT the bitwise OR of the requested flags — every requested flag bit is
cleared, every other bit is unchanged, and no bit is ever set. -/
theorem uacRemove_testBit (old : Nat) (flags : List Nat) (i : Nat) :
    (uacRemove old flags).testBit i
      = (old.testBit i && ! (uacFlagsOr flags).testBit i) := by
  unfold uacRemove pyAndNot
  rw [Nat.testBit_bitwise rfl]

/-- C10: the shadow-credentials removal issues the replace write even when no
entry matched the given key, replacing the attribute with the unchanged entry
list after the no-key-found warning. -/
theorem shadowCredentials_write_always (entries : List KeyCredEntry) (k : Bytes)
    (h : ∀ e ∈ entries, e.keyId ≠ k) :
    (shadowCredentialsOp entries (some k)).modification = some entries
    ∧ (shadowCredentialsOp entries (some k)).warnedNoKey = true := by
  have hfg := shadowFilter_go (some k) entries [] false
  have hfilter : entries.filter (fun e => decide (e.keyId ≠ k)) = entries :=
    List.filter_eq_self.mpr (fun e he => by simpa using h e he)
  have hany : entries.any (fun e => decide (e.keyId = k)) = false :=
    List.any_eq_false.mpr (fun e he => by simpa using h e he)
  constructor
  · simp only [shadowCredentialsOp, shadowFilter, hfg, List.nil_append,
      Option.some.injEq]
    exact hfilter
  · simp only [shadowCredentialsOp, shadowFilter, hfg, Bool.false_or,
      Bool.not_eq_true']
    exact hany

/-- C10 witness: a one-entry list and a key matching nothing — the write is
still issued with the unchanged list. -/
theorem shadowCredentials_write_always_witness :
    (shadowCredentialsOp [keyCredExample] (some [8, 8])).modification
        = some [keyCredExample]
    ∧ (shadowCredentialsOp [keyCredExample] (some [8, 8])).warnedNoKey = true :=
  shadowCredentials_write_always [keyCredExample] [8, 8] (by decide)
